import Mathlib

/-!
Verification development for the SOMEBODY / Robot Ellee motion-control
subsystem.

The Python sources are shallowly embedded as pure Lean functions:

* `motor.py` (`SOMEBODY4MotorController`) — per-wheel duty pairs and the
  kinematic helpers (`set_motor_speed`, `stop_all`, `move_forward`,
  `turn_left`, ..., `set_omni_movement`).  GPIO pin numbers and the PWM
  timing thread are hardware I/O and are not part of the modelled state;
  a wheel is modelled by its `(speed_f, speed_r)` duty pair only.
* `enhanced_motor_control.py` (`ElleeMotorController`) — the safety
  supervisor state (`is_moving`, `current_speed`, `emergency_stop_active`,
  movement history, ...) together with an explicit model of wall-clock
  time (`now`) and of the daemon watchdog threads spawned by
  `_start_movement`: each spawned thread is recorded as a `Watchdog`
  carrying its wake-up deadline and the index of the movement that
  spawned it.  Thread interleavings are modelled by an explicit event
  trace (`Event`, `step`, `runEvents`).
* `movement_comands.py` (`MovementCommandProcessor`) — utterances are
  modelled as lists of lowercase words; every regular expression of the
  source is a word-boundary pattern over whitespace-separated words and
  is translated to the corresponding predicate on the word list.
* `enhanced_brain_module_with_movements.py` — the `RobotState` machine,
  restricted to the movement-relevant transitions
  (`_process_movement_command`, `_handle_movement_state`,
  `_transition_to_moving`).

Numbers are rationals (`ℚ`): Python ints and floats both occur on the
speed paths (`set_omni_movement` divides), and no overflow semantics are
involved.
-/

/-! ## Wheel driver (`motor.py`) -/

/-- The duty pair of one wheel: `speed_f` and `speed_r` of `motors[name]`. -/
structure Wheel where
  speed_f : ℚ
  speed_r : ℚ
deriving DecidableEq, Repr

/-- The four wheels of `SOMEBODY4MotorController.motors`. -/

structure Motors where
  fl : Wheel
  fr : Wheel
  bl : Wheel
  br : Wheel
deriving DecidableEq, Repr

/-- Wheel identifiers, the fixed keys of the `motors` dict. -/

inductive WheelId
  | FL | FR | BL | BR
deriving DecidableEq, Repr

/-- Initial state: every duty is zero. -/

def motorsInit : Motors :=
  { fl := ⟨0, 0⟩, fr := ⟨0, 0⟩, bl := ⟨0, 0⟩, br := ⟨0, 0⟩ }

/-- Body of `set_motor_speed` acting on one wheel: clamp the requested
speed to `[-100, 100]`, then store it as a forward duty, a reverse duty,
or zero both. -/

def applySpeed (v : ℚ) : Wheel :=
  let c := max (-100) (min 100 v)
  if c > 0 then ⟨c, 0⟩
  else if c < 0 then ⟨0, -c⟩
  else ⟨0, 0⟩

/-- `set_motor_speed(motor_name, speed)` from `motor.py`. -/

def setMotorSpeed (m : Motors) (i : WheelId) (v : ℚ) : Motors :=
  match i with
  | .FL => { m with fl := applySpeed v }
  | .FR => { m with fr := applySpeed v }
  | .BL => { m with bl := applySpeed v }
  | .BR => { m with br := applySpeed v }

/-- `stop_all()`: `set_motor_speed(name, 0)` for every wheel. -/

def stopAll (m : Motors) : Motors :=
  setMotorSpeed (setMotorSpeed (setMotorSpeed (setMotorSpeed m .FL 0) .FR 0) .BR 0) .BL 0

/-- `move_forward(speed)`. -/

def moveForward (m : Motors) (v : ℚ) : Motors :=
  setMotorSpeed (setMotorSpeed (setMotorSpeed (setMotorSpeed m .FL v) .FR v) .BL v) .BR v

/-- `move_backward(speed)`. -/

def moveBackward (m : Motors) (v : ℚ) : Motors :=
  setMotorSpeed (setMotorSpeed (setMotorSpeed (setMotorSpeed m .FL (-v)) .FR (-v)) .BL (-v)) .BR (-v)

/-- `turn_left(speed)` (tank turn). -/

def turnLeft (m : Motors) (v : ℚ) : Motors :=
  setMotorSpeed (setMotorSpeed (setMotorSpeed (setMotorSpeed m .FL (-v)) .FR v) .BL (-v)) .BR v

/-- `turn_right(speed)` (tank turn). -/

def turnRight (m : Motors) (v : ℚ) : Motors :=
  setMotorSpeed (setMotorSpeed (setMotorSpeed (setMotorSpeed m .FL v) .FR (-v)) .BL v) .BR (-v)

/-- `strafe_left(speed)`. -/

def strafeLeft (m : Motors) (v : ℚ) : Motors :=
  setMotorSpeed (setMotorSpeed (setMotorSpeed (setMotorSpeed m .FL (-v)) .FR v) .BL v) .BR (-v)

/-- `strafe_right(speed)`. -/

def strafeRight (m : Motors) (v : ℚ) : Motors :=
  setMotorSpeed (setMotorSpeed (setMotorSpeed (setMotorSpeed m .FL v) .FR (-v)) .BL (-v)) .BR v

/-- `spin_clockwise(speed)`. -/

def spinClockwise (m : Motors) (v : ℚ) : Motors :=
  setMotorSpeed (setMotorSpeed (setMotorSpeed (setMotorSpeed m .FL v) .FR (-v)) .BL v) .BR (-v)

/-- `set_omni_movement(vx, vy, omega)`: omni-wheel kinematics followed by
proportional normalisation when any magnitude exceeds 100. -/

def setOmniMovement (m : Motors) (vx vy omega : ℚ) : Motors :=
  let fl := vx - vy - omega
  let fr := vx + vy + omega
  let bl := vx + vy - omega
  let br := vx - vy + omega
  let maxVal := max (max (abs fl) (abs fr)) (max (abs bl) (abs br))
  let fl := if maxVal > 100 then fl / maxVal * 100 else fl
  let fr := if maxVal > 100 then fr / maxVal * 100 else fr
  let bl := if maxVal > 100 then bl / maxVal * 100 else bl
  let br := if maxVal > 100 then br / maxVal * 100 else br
  setMotorSpeed (setMotorSpeed (setMotorSpeed (setMotorSpeed m .FL fl) .FR fr) .BL bl) .BR br

/-- The signed speed a duty pair encodes: forward duty minus reverse duty. -/

def signedSpeed (w : Wheel) : ℚ := w.speed_f - w.speed_r

/-- A duty pair is well formed: both duties in `[0, 100]` and at most one
of them nonzero. -/

def wheelInv (w : Wheel) : Prop :=
  0 ≤ w.speed_f ∧ w.speed_f ≤ 100 ∧ 0 ≤ w.speed_r ∧ w.speed_r ≤ 100 ∧
    (w.speed_f = 0 ∨ w.speed_r = 0)

/-- All four duty pairs are well formed. -/

def motorsInv (m : Motors) : Prop :=
  wheelInv m.fl ∧ wheelInv m.fr ∧ wheelInv m.bl ∧ wheelInv m.br

/-! ## Safety supervisor (`enhanced_motor_control.py`)

`ElleeMotorController` extends the wheel driver with movement tracking.
Wall-clock time is modelled by an explicit integer `now` field (advanced
only by trace events; the claims below involve integer times only), and
every daemon thread spawned by
`threading.Thread(target=self._movement_timeout_check)` is modelled as a
pending `Watchdog` record holding the time at which its
`time.sleep(self.movement_timeout)` expires and, as bookkeeping for the
statements below, the index (`total_movements` value) of the movement
that spawned it.

The `safety_lock` of the source is a non-reentrant `threading.Lock`.
`_start_movement` and `_end_movement` each take it for the duration of
their body; `stop_all_safe` takes it only inside `_end_movement`; but
`emergency_stop()` calls `_end_movement()` while already holding it and
therefore deadlocks.  The per-operation definitions below are the locked
bodies (what a call that acquires the lock does); the deadlock and the
permanently wedged lock are modelled by the `lockWedged` flag, by the
faithful `emergencyStop`, and by call-level wrappers returning `none`
for a call that blocks forever. -/

/-- One entry of `movement_history` (`datetime.now().isoformat()` is
modelled as the integer `now`). -/
structure HistEntry where
  action : String
  duration : ℤ
  speed : ℚ
  timestamp : ℤ
deriving DecidableEq, Repr

/-- A live `_movement_timeout_check` daemon thread: it wakes at `wake`
and was spawned by movement number `forMovement`. -/

structure Watchdog where
  wake : ℤ
  forMovement : ℕ
deriving DecidableEq, Repr

/-- The `ElleeMotorController` state (plus modelled wall clock and the
pending watchdog threads).  `safety_lock` is a non-reentrant
`threading.Lock`; the only operation that can leave it held across an
operation boundary is the self-deadlocking `emergency_stop()`, recorded
by `lockWedged` — once true, every later `with self.safety_lock:`
acquire blocks forever. -/

structure Ellee where
  motors : Motors
  defaultSpeed : ℚ
  maxSafeSpeed : ℚ
  currentSpeed : ℚ
  isMoving : Bool
  currentAction : String
  movementStartTime : Option ℤ
  emergencyStopActive : Bool
  lockWedged : Bool
  movementTimeoutS : ℤ
  movementHistory : List HistEntry
  totalMovements : ℕ
  watchdogs : List Watchdog
  now : ℤ
deriving DecidableEq, Repr

/-- Freshly constructed controller (`__init__`). -/

def elleeInit : Ellee :=
  { motors := motorsInit
    defaultSpeed := 50
    maxSafeSpeed := 70
    currentSpeed := 50
    isMoving := false
    currentAction := "stopped"
    movementStartTime := none
    emergencyStopActive := false
    lockWedged := false
    movementTimeoutS := 10
    movementHistory := []
    totalMovements := 0
    watchdogs := []
    now := 0 }

/-- `set_speed_limit(speed)`: clamp to `[0, max_safe_speed]`, store the
result in `current_speed`, and return it. -/

def setSpeedLimit (s : Ellee) (v : ℚ) : Ellee × ℚ :=
  let c := max 0 (min s.maxSafeSpeed v)
  ({ s with currentSpeed := c }, c)

/-- `_start_movement(action_name)`: the admission check — the body of
its `with self.safety_lock:` block, as run by a call that acquired the
lock (`startMovementCall` models the acquire itself).  Rejected (and
nothing changed) while the emergency-stop flag is set; otherwise marks
the controller moving, records the start time, bumps `total_movements`,
and spawns exactly one watchdog thread for this movement. -/

def startMovement (s : Ellee) (action : String) : Ellee × Bool :=
  if s.emergencyStopActive then (s, false)
  else
    ({ s with isMoving := true
              currentAction := action
              movementStartTime := some s.now
              totalMovements := s.totalMovements + 1
              watchdogs := s.watchdogs ++
                [⟨s.now + s.movementTimeoutS, s.totalMovements + 1⟩] }, true)

/-- `_end_movement()`: if a movement is in progress, append a history
entry (keeping only the last 50) computed from the realized duration;
in all cases reset `is_moving`, `current_action`, `movement_start_time`.
The watchdog list is untouched: the source has no way to cancel a
sleeping daemon thread. -/

def endMovement (s : Ellee) : Ellee :=
  if s.isMoving then
    let dur := match s.movementStartTime with
      | some t => s.now - t
      | none => 0
    let h := s.movementHistory ++ [⟨s.currentAction, dur, s.currentSpeed, s.now⟩]
    let h := if h.length > 50 then h.drop (h.length - 50) else h
    { s with movementHistory := h
             isMoving := false
             currentAction := "stopped"
             movementStartTime := none }
  else
    { s with isMoving := false
             currentAction := "stopped"
             movementStartTime := none }

/-- `stop_all_safe()`: `super().stop_all()` then `_end_movement()`. -/

def stopAllSafe (s : Ellee) : Ellee :=
  endMovement { s with motors := stopAll s.motors }

/-- `emergency_stop()`: inside `with self.safety_lock:` it sets the
flag and zeroes all wheels, then calls `_end_movement()`, which blocks
forever re-acquiring the non-reentrant `safety_lock` the caller already
holds.  The call therefore never returns: no message is returned, no
history entry is appended, `is_moving` is never cleared, the
flag-clearing daemon (`_clear_emergency_stop`) is never spawned, and
the lock stays held forever (`lockWedged`).  Invoked on an already
wedged controller it blocks at its own acquire, changing nothing. -/
def emergencyStop (s : Ellee) : Ellee :=
  if s.lockWedged then s
  else { s with emergencyStopActive := true
                motors := stopAll s.motors
                lockWedged := true }

/-- A `_start_movement` call as the calling thread experiences it: on a
wedged `safety_lock` the `with self.safety_lock:` acquire blocks
forever (no return value, no state change); otherwise the locked body
`startMovement` runs to completion. -/
def startMovementCall (s : Ellee) (action : String) : Ellee × Option Bool :=
  if s.lockWedged then (s, none)
  else
    let p := startMovement s action
    (p.1, some p.2)

/-- Events of the concurrency model: wall-clock progress, the public
operations, and the wake-up of the oldest pending watchdog thread
(`_movement_timeout_check` resumes after its sleep and force-stops
everything if `is_moving` is still — or again — true).  There is no
flag-clearing event: the clearing daemon is only spawned after the
point where `emergency_stop()` deadlocks, so it never exists. -/
inductive Event
  | advance (dt : ℤ)
  | start (action : String)
  | stopSafe
  | estop
  | fire
deriving DecidableEq, Repr

/-- Small-step semantics of one event.  Each event applies the locked
body the corresponding call runs once it has acquired `safety_lock`;
`.estop` applies the deadlocked emergency stop, which wedges the lock.
A trace therefore describes a real execution as long as the lock is
free at each lock-acquiring event — the only wedger is `.estop`, and
the traces used below contain none. -/
def step (s : Ellee) : Event → Ellee
  | .advance dt => { s with now := s.now + dt }
  | .start a => (startMovement s a).1
  | .stopSafe => stopAllSafe s
  | .estop => emergencyStop s
  | .fire =>
      match s.watchdogs with
      | [] => s
      | w :: rest =>
          if w.wake ≤ s.now then
            if s.isMoving then stopAllSafe { s with watchdogs := rest }
            else { s with watchdogs := rest }
          else s

/-- Run an event trace from a state. -/

def runEvents (s : Ellee) (evs : List Event) : Ellee :=
  evs.foldl step s

/-! ## C1: the watchdog lifecycle -/

/-- Claim C1, conjunct by conjunct, as a predicate on a reachable state:
a watchdog thread is live iff `is_moving` is true; at most one watchdog
is live; and a due watchdog only ever fires on the movement that spawned
it (the currently active movement number equals its `forMovement` tag). -/

def watchdogDiscipline (s : Ellee) : Prop :=
  ((s.isMoving = true) ↔ s.watchdogs ≠ []) ∧
  s.watchdogs.length ≤ 1 ∧
  (∀ w rest, s.watchdogs = w :: rest → w.wake ≤ s.now → s.isMoving = true →
    s.totalMovements = w.forMovement)

/-- Claim C1 as stated, over every event trace from the freshly
constructed controller. -/

def c1ClaimAsStated : Prop :=
  ∀ evs : List Event, watchdogDiscipline (runEvents elleeInit evs)

/-- Trace violating the iff: movement started at time 0 and safely
stopped at time 1; its watchdog daemon is still pending. -/

def c1Trace1 : List Event := [.start "moving forward", .advance 1, .stopSafe]

/-- Trace violating the no-later-movement conjunct: movement 1 (started
at 0, stopped at 1) leaves its watchdog pending; movement 2 starts at
time 2; at time 10 the stale watchdog of movement 1 is due while
movement 2 is the active one.  Letting it fire force-stops movement 2
after only 8 seconds (its own watchdog would be due at time 12). -/

def c1Trace2 : List Event :=
  [.start "moving forward", .advance 1, .stopSafe, .advance 1,
   .start "moving backward", .advance 8]

/-! ## Voice movement methods (`enhanced_motor_control.py`)

`speed or self.current_speed` in Python treats both `None` and `0` as
absent; `duration` only controls the spawned timed-stop daemon (an
`Event` in the trace model) and the response string. -/

/-- Python `a or b` on an optional number: `None` and `0` both fall
back to the default. -/
def pyOrQ (v : Option ℚ) (d : ℚ) : ℚ :=
  match v with
  | none => d
  | some x => if x = 0 then d else x

/-- Render a rational speed the way the Python f-string renders the int. -/

def qStr (v : ℚ) : String := toString v

/-- Shared shape of `voice_move_forward` / `voice_move_backward` / ... :
admission check, speed clamping, kinematics, response text.  A `none`
response models a call that never returns because `_start_movement`
blocked on the wedged `safety_lock`. -/
def voiceMove (s : Ellee) (action : String) (drive : Motors → ℚ → Motors)
    (verb : String) (speed : Option ℚ) (duration : Option ℤ) : Ellee × Option String :=
  match startMovementCall s action with
  | (s1, none) => (s1, none)
  | (s1, some false) => (s1, some "Cannot move - emergency stop active")
  | (s1, some true) =>
    let p := setSpeedLimit s1 (pyOrQ speed s1.currentSpeed)
    let s3 := { p.1 with motors := drive p.1.motors p.2 }
    match duration with
    | some d =>
        (s3, some (verb ++ " at " ++ qStr p.2 ++ "% speed for " ++ toString d ++ " seconds"))
    | none => (s3, some (verb ++ " at " ++ qStr p.2 ++ "% speed"))

/-- `voice_move_forward(speed, duration)`. -/

def voiceMoveForward (s : Ellee) (speed : Option ℚ) (duration : Option ℤ) : Ellee × Option String :=
  voiceMove s "moving forward" moveForward "Moving forward" speed duration

/-- `voice_move_backward(speed, duration)`. -/

def voiceMoveBackward (s : Ellee) (speed : Option ℚ) (duration : Option ℤ) : Ellee × Option String :=
  voiceMove s "moving backward" moveBackward "Moving backward" speed duration

/-- `voice_turn_left(speed, duration)`. -/

def voiceTurnLeft (s : Ellee) (speed : Option ℚ) (duration : Option ℤ) : Ellee × Option String :=
  voiceMove s "turning left" turnLeft "Turning left" speed duration

/-- `voice_turn_right(speed, duration)`. -/

def voiceTurnRight (s : Ellee) (speed : Option ℚ) (duration : Option ℤ) : Ellee × Option String :=
  voiceMove s "turning right" turnRight "Turning right" speed duration

/-- `voice_strafe_left(speed, duration)`. -/

def voiceStrafeLeft (s : Ellee) (speed : Option ℚ) (duration : Option ℤ) : Ellee × Option String :=
  voiceMove s "strafing left" strafeLeft "Moving left sideways" speed duration

/-- `voice_strafe_right(speed, duration)`. -/

def voiceStrafeRight (s : Ellee) (speed : Option ℚ) (duration : Option ℤ) : Ellee × Option String :=
  voiceMove s "strafing right" strafeRight "Moving right sideways" speed duration

/-- `voice_spin_around(speed, duration=2)`: falls back to
`current_speed - 10` and always auto-stops after `duration`. -/

def voiceSpinAround (s : Ellee) (speed : Option ℚ) (duration : ℤ) : Ellee × Option String :=
  match startMovementCall s "spinning around" with
  | (s1, none) => (s1, none)
  | (s1, some false) => (s1, some "Cannot move - emergency stop active")
  | (s1, some true) =>
    let p := setSpeedLimit s1 (pyOrQ speed (s1.currentSpeed - 10))
    let s3 := { p.1 with motors := spinClockwise p.1.motors p.2 }
    (s3, some ("Spinning around at " ++ qStr p.2 ++ "% speed for " ++ toString duration ++ " seconds"))

/-- `voice_dance_mode()`: admission plus a background dance thread whose
wheel activity unfolds over time (not part of the single-step model). -/

def voiceDanceMode (s : Ellee) : Ellee × Option String :=
  match startMovementCall s "dancing" with
  | (s1, none) => (s1, none)
  | (s1, some false) => (s1, some "Cannot move - emergency stop active")
  | (s1, some true) => (s1, some "Let me show you my moves! Starting dance mode!")

/-- `voice_come_here(duration=2)`: forward at the fixed safe speed 30. -/

def voiceComeHere (s : Ellee) (duration : ℤ) : Ellee × Option String :=
  match startMovementCall s "coming to you" with
  | (s1, none) => (s1, none)
  | (s1, some false) => (s1, some "Cannot move - emergency stop active")
  | (s1, some true) =>
    let p := setSpeedLimit s1 30
    let s3 := { p.1 with motors := moveForward p.1.motors p.2 }
    (s3, some ("Coming to you at safe speed for " ++ toString duration ++ " seconds"))

/-! ## Command interpreter (`movement_comands.py`)

An utterance is a list of lowercase words.  Every pattern of
`command_patterns` is a word-boundary regex over whitespace-separated
words and is modelled by the corresponding word / adjacent-words test. -/

/-- Does the word occur in the utterance (`\bword\b`)? -/

def hasWord (ws : List String) (w : String) : Bool := ws.contains w

/-- Do the two words occur adjacently (`\ba\s+b\b`)? -/

def hasSeq2 (ws : List String) (a b : String) : Bool :=
  match ws with
  | [] => false
  | [_] => false
  | x :: y :: rest => (x = a && y = b) || hasSeq2 (y :: rest) a b

/-- Do three words occur adjacently (`\ba\s+b\s+c\b`)? -/

def hasSeq3 (ws : List String) (a b c : String) : Bool :=
  match ws with
  | [] => false
  | [_] => false
  | [_, _] => false
  | x :: y :: z :: rest => (x = a && y = b && z = c) || hasSeq3 (y :: z :: rest) a b c

/-- Do four words occur adjacently? -/

def hasSeq4 (ws : List String) (a b c d : String) : Bool :=
  match ws with
  | x :: y :: z :: u :: rest =>
      (x = a && y = b && z = c && u = d) || hasSeq4 (y :: z :: u :: rest) a b c d
  | _ => false

/-- Adjacent pair with alternation groups (`\b(g1|...)\s+(g2|...)\b`). -/

def hasPairIn (ws : List String) (g1 g2 : List String) : Bool :=
  match ws with
  | [] => false
  | [_] => false
  | x :: y :: rest => (g1.contains x && g2.contains y) || hasPairIn (y :: rest) g1 g2

/-- The command types, the keys of `command_patterns` in dict order. -/

inductive CmdType
  | moveForward | moveBackward | turnLeft | turnRight
  | strafeLeft | strafeRight | spinAround | dance | comeHere
  | stop | emergencyStop
deriving DecidableEq, Repr

/-- `_match_command(text, command_type)`: the pattern lists of
`command_patterns`, one test per regex, in source order. -/

def matchCommand (ws : List String) : CmdType → Bool
  | .moveForward =>
      hasPairIn ws ["move", "go", "walk"] ["forward", "ahead", "straight"] ||
      hasWord ws "forward" || hasSeq2 ws "go" "forward" || hasSeq2 ws "move" "ahead"
  | .moveBackward =>
      hasPairIn ws ["move", "go", "walk"] ["backward", "back", "backwards"] ||
      hasWord ws "backward" || hasSeq2 ws "go" "back" || hasSeq2 ws "move" "back" ||
      hasWord ws "reverse"
  | .turnLeft =>
      hasSeq2 ws "turn" "left" || hasSeq2 ws "go" "left" ||
      hasSeq2 ws "left" "turn" || hasSeq2 ws "rotate" "left"
  | .turnRight =>
      hasSeq2 ws "turn" "right" || hasSeq2 ws "go" "right" ||
      hasSeq2 ws "right" "turn" || hasSeq2 ws "rotate" "right"
  | .strafeLeft =>
      hasPairIn ws ["move", "strafe", "slide"] ["left"] ||
      hasSeq2 ws "sideway" "left" || hasSeq2 ws "step" "left"
  | .strafeRight =>
      hasPairIn ws ["move", "strafe", "slide"] ["right"] ||
      hasSeq2 ws "sideway" "right" || hasSeq2 ws "step" "right"
  | .spinAround =>
      hasPairIn ws ["spin"] ["around", "clockwise"] || hasSeq2 ws "turn" "around" ||
      hasPairIn ws ["rotate"] ["around", "full"] || hasWord ws "spin"
  | .dance =>
      hasWord ws "dance" || hasSeq4 ws "show" "me" "your" "moves" ||
      hasSeq2 ws "dance" "mode" || hasSeq2 ws "let\x27s" "dance"
  | .comeHere =>
      hasSeq2 ws "come" "here" || hasSeq3 ws "come" "to" "me" ||
      hasSeq2 ws "come" "over" || hasWord ws "approach"
  | .stop =>
      hasWord ws "stop" || hasWord ws "halt" || hasSeq2 ws "stop" "moving" ||
      hasWord ws "freeze"
  | .emergencyStop =>
      hasSeq2 ws "emergency" "stop" || hasSeq2 ws "stop" "now" ||
      hasSeq2 ws "stop" "immediately" || hasWord ws "estop" || hasSeq2 ws "e" "stop"

/-- `is_movement_command(text)`: any pattern of any command type matches. -/

def isMovementCommand (ws : List String) : Bool :=
  matchCommand ws .moveForward || matchCommand ws .moveBackward ||
  matchCommand ws .turnLeft || matchCommand ws .turnRight ||
  matchCommand ws .strafeLeft || matchCommand ws .strafeRight ||
  matchCommand ws .spinAround || matchCommand ws .dance ||
  matchCommand ws .comeHere || matchCommand ws .stop ||
  matchCommand ws .emergencyStop

/-- `_extract_speed(text)`: the `speed_patterns` dict in source order —
slow 30, fast 65, normal 50. -/

def extractSpeed (ws : List String) : Option ℚ :=
  if hasWord ws "slow" || hasWord ws "slowly" || hasWord ws "carefully" then some 30
  else if hasWord ws "fast" || hasWord ws "quick" || hasWord ws "quickly" ||
      hasWord ws "rapid" then some 65
  else if hasWord ws "normal" || hasWord ws "regular" || hasWord ws "medium" then some 50
  else none

/-- Is the word a digit string (`\d+`)? -/

def isNumeral (w : String) : Bool := w ≠ "" && w.toList.all Char.isDigit

/-- Scan for `\bfor\s+(\d+)\s+seconds?\b`. -/

def durForSeconds : List String → Option ℤ
  | "for" :: n :: u :: rest =>
      if isNumeral n && (u = "seconds" || u = "second") then some (n.toNat?.getD 0)
      else durForSeconds (n :: u :: rest)
  | _ :: rest => durForSeconds rest
  | [] => none

/-- Scan for `\bfor\s+(\d+)\s+sec\b`. -/

def durForSec : List String → Option ℤ
  | "for" :: n :: u :: rest =>
      if isNumeral n && u = "sec" then some (n.toNat?.getD 0)
      else durForSec (n :: u :: rest)
  | _ :: rest => durForSec rest
  | [] => none

/-- Scan for `\b(\d+)\s+seconds?\b`. -/

def durNSeconds : List String → Option ℤ
  | n :: u :: rest =>
      if isNumeral n && (u = "seconds" || u = "second") then some (n.toNat?.getD 0)
      else durNSeconds (u :: rest)
  | _ => none

/-- `_extract_duration(text)`: the `duration_patterns` dict in source
order; first matching pattern wins. -/

def extractDuration (ws : List String) : Option ℤ :=
  match durForSeconds ws with
  | some d => some d
  | none =>
    match durForSec ws with
    | some d => some d
    | none =>
      match durNSeconds ws with
      | some d => some d
      | none =>
        if hasSeq2 ws "a" "bit" then some 1
        else if hasSeq2 ws "a" "little" then some 1
        else if hasSeq2 ws "a" "while" then some 3
        else if hasSeq2 ws "a" "moment" then some 2
        else none

/-- The result dict of `process_voice_command` (the conversational
wrapper `_add_conversational_context`, which draws a random phrase
starter, is not modelled; `response` is the message of the movement
method). -/

structure CmdResult where
  success : Bool
  response : String
  commandType : Option CmdType := none
  speed : Option ℚ := none
  duration : Option ℤ := none
deriving DecidableEq, Repr

/-- The success dict that `_execute_movement_command` builds around a
movement method response. -/
def okResult (t : CmdType) (sp : Option ℚ) (d : Option ℤ) (msg : String) : CmdResult :=
  { success := true, response := msg, commandType := some t, speed := sp, duration := d }

/-- `_execute_movement_command(command_type, speed, duration, ...)`.
Keyword arguments mirror the source: an extracted value is passed, an
absent one leaves the Python default (`None`, or `2` for the durations
of `voice_spin_around` / `voice_come_here`).  Passing a speed to
`voice_come_here`, which has no speed parameter, raises `TypeError`,
which the source catches and turns into a failure result. -/

def executeMovementCommand (s : Ellee) (t : CmdType) (speed : Option ℚ)
    (duration : Option ℤ) : Ellee × Option CmdResult :=
  let ok (p : Ellee × Option String) : Ellee × Option CmdResult :=
    (p.1, p.2.map (okResult t speed duration))
  match t with
  | .moveForward => ok (voiceMoveForward s speed duration)
  | .moveBackward => ok (voiceMoveBackward s speed duration)
  | .turnLeft => ok (voiceTurnLeft s speed duration)
  | .turnRight => ok (voiceTurnRight s speed duration)
  | .strafeLeft => ok (voiceStrafeLeft s speed duration)
  | .strafeRight => ok (voiceStrafeRight s speed duration)
  | .spinAround => ok (voiceSpinAround s speed (duration.getD 2))
  | .dance => ok (voiceDanceMode s)
  | .comeHere =>
      match speed with
      | some _ =>
          (s, some { success := false,
                     response := "Sorry, I couldn\x27t execute that movement" })
      | none => ok (voiceComeHere s (duration.getD 2))
  | .stop => (s, some { success := false, response := "Unknown command type" })
  | .emergencyStop => (s, some { success := false, response := "Unknown command type" })

/-- The movement command types tried by the `for` loop of
`process_voice_command`, in dict order (`stop` and `emergency_stop` are
skipped there). -/

def movementOrder : List CmdType :=
  [.moveForward, .moveBackward, .turnLeft, .turnRight,
   .strafeLeft, .strafeRight, .spinAround, .dance, .comeHere]

/-- The loop body: first matching movement command is executed. -/

def tryMovements (s : Ellee) (ws : List String) (speed : Option ℚ)
    (duration : Option ℤ) : List CmdType → Ellee × Option CmdResult
  | [] => (s, some { success := false,
                     response := "I didn\x27t understand that movement command" })
  | t :: rest =>
      if matchCommand ws t then executeMovementCommand s t speed duration
      else tryMovements s ws speed duration rest

/-- `process_voice_command(voice_text)`: emergency stop first, plain
stop second, then the movement commands in dict order.  The emergency
branch invokes the deadlocking `emergency_stop()`: its effects on the
shared controller state apply, but the call never returns (`none`), so
the source line that would build the emergency result dict is
unreachable.  The stop branch runs `stop_all()` unlocked and then
blocks in `_end_movement()` if the lock is wedged. -/
def processVoiceCommand (s : Ellee) (ws : List String) : Ellee × Option CmdResult :=
  if ws = [] then
    (s, some { success := false, response := "No voice input received" })
  else if matchCommand ws .emergencyStop then
    (emergencyStop s, none)
  else if matchCommand ws .stop then
    if s.lockWedged then ({ s with motors := stopAll s.motors }, none)
    else (stopAllSafe s, some { success := true, response := "Stopping all movement",
                                commandType := some .stop })
  else
    tryMovements s ws (extractSpeed ws) (extractDuration ws) movementOrder

/-! ## Robot state machine (`enhanced_brain_module_with_movements.py`)

Only the movement-relevant slice: `RobotState`, `_transition_to_moving`,
`_process_movement_command` and `_handle_movement_state`.  `_speak` never
changes the state away from `MOVING` (it skips the transition to
`SPEAKING` while moving), so it is the identity here. -/

/-- The `RobotState` enum. -/

inductive RobotState
  | idle | listening | thinking | speaking | engaging | learning | moving
deriving DecidableEq, Repr

/-- The brain state restricted to the fields the movement path reads. -/

structure Brain where
  robot : RobotState
  ellee : Ellee
  personDetected : Bool
  movementEnabled : Bool
  brainMovementTimeout : ℤ
deriving DecidableEq, Repr

/-- `_transition_to_moving()`. -/

def transitionToMoving (b : Brain) : Brain := { b with robot := .moving }

/-- `_transition_to_listening()` (speech-listener side effects are
external collaborators). -/

def transitionToListening (b : Brain) : Brain := { b with robot := .listening }

/-- `_transition_to_idle()`. -/

def transitionToIdle (b : Brain) : Brain := { b with robot := .idle }

/-- `_process_movement_command(speech_text)`: transition to `MOVING`
first, then run the command through the processor; on a failure result
fall back to `LISTENING`.  When the processor call never returns (it
blocked inside the motor controller), the main-loop thread hangs and
the brain is left in `MOVING`. -/
def processMovementCommand (b : Brain) (ws : List String) : Brain :=
  let b1 := transitionToMoving b
  let p := processVoiceCommand b1.ellee ws
  match p.2 with
  | none => { b1 with ellee := p.1 }
  | some r =>
      if r.success then { b1 with ellee := p.1 }
      else transitionToListening { b1 with ellee := p.1 }

/-- `movement_duration` of `get_movement_status()`. -/

def movementDuration (s : Ellee) : ℤ :=
  match s.movementStartTime with
  | some t => s.now - t
  | none => 0

/-- `_handle_movement_state()`: leave `MOVING` when the controller
reports not moving; force a safe stop past the brain-level timeout. -/

def handleMovementState (b : Brain) : Brain :=
  if b.movementEnabled then
    if !b.ellee.isMoving then
      if b.personDetected then transitionToListening b else transitionToIdle b
    else
      if movementDuration b.ellee > b.brainMovementTimeout then
        { b with ellee := stopAllSafe b.ellee }
      else b
  else transitionToListening b

/-- The entry direction of claim C3 as stated: whenever processing a
movement command moves a brain that was neither in `MOVING` nor already
moving into `MOVING`, the admission check of the supervisor must have
succeeded (the controller is actually moving afterwards). -/
def c3EntryClaim : Prop :=
  ∀ (b : Brain) (ws : List String), b.robot ≠ RobotState.moving →
    b.ellee.isMoving = false →
    (processMovementCommand b ws).robot = RobotState.moving →
    (processMovementCommand b ws).ellee.isMoving = true

/-- A freshly initialized, listening brain — the ordinary reachable
state in which voice commands are processed. -/
def c3Brain : Brain :=
  { robot := .listening
    ellee := elleeInit
    personDetected := true
    movementEnabled := true
    brainMovementTimeout := 30 }

/-! ## Basic facts about the wheel invariant -/

lemma wheelInv_applySpeed (v : ℚ) : wheelInv (applySpeed v) := by
  have h1 : -100 ≤ max (-100) (min 100 v) := le_max_left _ _
  have h2 : max (-100) (min 100 v) ≤ 100 :=
    max_le (by norm_num) (min_le_left _ _)
  unfold applySpeed wheelInv
  dsimp only
  by_cases hp : max (-100) (min 100 v) > 0
  · simp only [if_pos hp]
    exact ⟨le_of_lt hp, h2, le_refl 0, by norm_num, Or.inr trivial⟩
  · simp only [if_neg hp]
    by_cases hn : max (-100) (min 100 v) < 0
    · simp only [if_pos hn]
      exact ⟨le_refl 0, by norm_num, by linarith, by linarith, Or.inl trivial⟩
    · simp only [if_neg hn]
      exact ⟨le_refl 0, by norm_num, le_refl 0, by norm_num, Or.inl trivial⟩

lemma motorsInv_setMotorSpeed (m : Motors) (hm : motorsInv m) (i : WheelId) (v : ℚ) :
    motorsInv (setMotorSpeed m i v) := by
  obtain ⟨h1, h2, h3, h4⟩ := hm
  cases i <;> exact ⟨by first | exact wheelInv_applySpeed v | assumption,
    by first | exact wheelInv_applySpeed v | assumption,
    by first | exact wheelInv_applySpeed v | assumption,
    by first | exact wheelInv_applySpeed v | assumption⟩

lemma motorsInv_init : motorsInv motorsInit := by
  have h : wheelInv ⟨0, 0⟩ :=
    ⟨le_refl 0, by norm_num, le_refl 0, by norm_num, Or.inl rfl⟩
  exact ⟨h, h, h, h⟩

/-- C8. For every sequence of `set_motor_speed` calls, with arbitrary
rational (in particular all integer) speed arguments, every per-wheel duty
pair stays in `[0,100] × [0,100]` with at most one duty nonzero. -/

theorem c8_wheel_duty_invariant (calls : List (WheelId × ℚ)) :
    motorsInv (calls.foldl (fun m c => setMotorSpeed m c.1 c.2) motorsInit) := by
  suffices h : ∀ (m : Motors), motorsInv m →
      motorsInv (calls.foldl (fun m c => setMotorSpeed m c.1 c.2) m) from
    h motorsInit motorsInv_init
  induction calls with
  | nil => intro m hm; exact hm
  | cons c rest ih =>
      intro m hm
      exact ih _ (motorsInv_setMotorSpeed m hm c.1 c.2)

lemma signed_applySpeed_of_abs_le (v : ℚ) (h : |v| ≤ 100) :
    signedSpeed (applySpeed v) = v := by
  have h1 := abs_le.mp h
  unfold applySpeed signedSpeed
  dsimp only
  have hc : max (-100) (min 100 v) = v := by
    rw [min_eq_right h1.2, max_eq_right h1.1]
  rw [hc]
  by_cases hp : v > 0
  · simp [if_pos hp]
  · simp only [if_neg hp]
    by_cases hn : v < 0
    · simp [if_pos hn]
    · have hv : v = 0 := le_antisymm (not_lt.mp hp) (not_lt.mp hn)
      simp [if_neg hn, hv]

lemma scaled_signed (a mv : ℚ) (ha : |a| ≤ mv) :
    signedSpeed (applySpeed (if mv > 100 then a / mv * 100 else a)) =
      (if mv > 100 then 100 / mv else 1) * a ∧
    |signedSpeed (applySpeed (if mv > 100 then a / mv * 100 else a))| ≤ 100 := by
  by_cases hM : mv > 100
  · simp only [if_pos hM]
    have hmv0 : (0:ℚ) < mv := by linarith
    have heq : a / mv * 100 = 100 / mv * a := by ring
    have habs : |a / mv * 100| ≤ 100 := by
      rw [heq, abs_mul, abs_of_pos (by positivity : (0:ℚ) < 100 / mv)]
      calc 100 / mv * |a| ≤ 100 / mv * mv := by
            exact mul_le_mul_of_nonneg_left ha (by positivity)
        _ = 100 := div_mul_cancel₀ 100 (ne_of_gt hmv0)
    refine ⟨?_, ?_⟩
    · rw [signed_applySpeed_of_abs_le _ habs, heq]
    · rw [signed_applySpeed_of_abs_le _ habs]; exact habs
  · simp only [if_neg hM]
    have h100 : |a| ≤ 100 := le_trans ha (not_lt.mp hM)
    refine ⟨?_, ?_⟩
    · rw [signed_applySpeed_of_abs_le _ h100, one_mul]
    · rw [signed_applySpeed_of_abs_le _ h100]; exact h100

/-- C5. `set_omni_movement` computes `FL=vx−vy−ω, FR=vx+vy+ω, BL=vx+vy−ω,
BR=vx−vy+ω`; when the largest magnitude exceeds 100 all four are scaled by
the single positive factor `100/max`, so every resulting wheel magnitude
is within `[−100, 100]` and the pairwise ratios are preserved (the same
factor `k > 0` multiplies every wheel; no independent clipping occurs). -/

theorem c5_omni_proportional (m : Motors) (vx vy ω : ℚ) :
    let fl := vx - vy - ω
    let fr := vx + vy + ω
    let bl := vx + vy - ω
    let br := vx - vy + ω
    let maxVal := max (max (abs fl) (abs fr)) (max (abs bl) (abs br))
    let k : ℚ := if maxVal > 100 then 100 / maxVal else 1
    let m' := setOmniMovement m vx vy ω
    0 < k ∧
    signedSpeed m'.fl = k * fl ∧ signedSpeed m'.fr = k * fr ∧
    signedSpeed m'.bl = k * bl ∧ signedSpeed m'.br = k * br ∧
    |signedSpeed m'.fl| ≤ 100 ∧ |signedSpeed m'.fr| ≤ 100 ∧
    |signedSpeed m'.bl| ≤ 100 ∧ |signedSpeed m'.br| ≤ 100 := by
  intro fl fr bl br maxVal k m'
  have hfl : |fl| ≤ maxVal := le_trans (le_max_left _ _) (le_max_left _ _)
  have hfr : |fr| ≤ maxVal := le_trans (le_max_right _ _) (le_max_left _ _)
  have hbl : |bl| ≤ maxVal := le_trans (le_max_left _ _) (le_max_right _ _)
  have hbr : |br| ≤ maxVal := le_trans (le_max_right _ _) (le_max_right _ _)
  have hflE : m'.fl = applySpeed (if maxVal > 100 then fl / maxVal * 100 else fl) := rfl
  have hfrE : m'.fr = applySpeed (if maxVal > 100 then fr / maxVal * 100 else fr) := rfl
  have hblE : m'.bl = applySpeed (if maxVal > 100 then bl / maxVal * 100 else bl) := rfl
  have hbrE : m'.br = applySpeed (if maxVal > 100 then br / maxVal * 100 else br) := rfl
  have hk : 0 < k := by
    show 0 < (if maxVal > 100 then 100 / maxVal else 1)
    by_cases hM : maxVal > 100
    · rw [if_pos hM]; positivity
    · rw [if_neg hM]; norm_num
  refine ⟨hk, ?_, ?_, ?_, ?_, ?_, ?_, ?_, ?_⟩
  · rw [hflE]; exact (scaled_signed fl maxVal hfl).1
  · rw [hfrE]; exact (scaled_signed fr maxVal hfr).1
  · rw [hblE]; exact (scaled_signed bl maxVal hbl).1
  · rw [hbrE]; exact (scaled_signed br maxVal hbr).1
  · rw [hflE]; exact (scaled_signed fl maxVal hfl).2
  · rw [hfrE]; exact (scaled_signed fr maxVal hfr).2
  · rw [hblE]; exact (scaled_signed bl maxVal hbl).2
  · rw [hbrE]; exact (scaled_signed br maxVal hbr).2

/-! ## C1: the watchdog lifecycle of the supervisor -/

/-- C1 fails on the code: after `c1Trace1` the controller is not moving
but a watchdog is still live (`_end_movement` cannot cancel the sleeping
daemon thread), and after `c1Trace2` the due watchdog belongs to
movement 1 while movement 2 is active — firing it stops movement 2 after
8 seconds, as the appended history entry records. -/
theorem c1_counterexample :
    ¬ c1ClaimAsStated ∧
    (runEvents elleeInit c1Trace1).isMoving = false ∧
    (runEvents elleeInit c1Trace1).watchdogs = [⟨10, 1⟩] ∧
    (runEvents elleeInit c1Trace2).isMoving = true ∧
    (runEvents elleeInit c1Trace2).totalMovements = 2 ∧
    (runEvents elleeInit c1Trace2).watchdogs.head? = some ⟨10, 1⟩ ∧
    (runEvents elleeInit (c1Trace2 ++ [.fire])).isMoving = false ∧
    (runEvents elleeInit (c1Trace2 ++ [.fire])).movementHistory.map
        (fun e => (e.action, e.duration)) =
      [("moving forward", 1), ("moving backward", 8)] := by
  refine ⟨?_, by decide, by decide, by decide, by decide, by decide, by decide, by decide⟩
  intro h
  have h1 := (h c1Trace1).1
  have hw : (runEvents elleeInit c1Trace1).watchdogs ≠ [] := by decide
  have hm : (runEvents elleeInit c1Trace1).isMoving = false := by decide
  rw [hm] at h1
  exact absurd (h1.mpr hw) (by decide)

/-- C1 amended: each admitted movement arms exactly one watchdog (a
rejected admission arms none), but ending a movement does *not* cancel
the watchdog — `stop_all_safe` leaves the pending-watchdog list
untouched; a due watchdog that fires while `is_moving` is false only
expires, changing nothing else, while one that fires while `is_moving`
is true force-stops whichever movement is active at that moment,
regardless of which movement armed it (so it can act on a later
movement). -/

theorem c1_amended_watchdog_lifecycle (s : Ellee) (a : String) :
    (s.emergencyStopActive = false →
      (startMovement s a).2 = true ∧
      (startMovement s a).1.watchdogs =
        s.watchdogs ++ [⟨s.now + s.movementTimeoutS, s.totalMovements + 1⟩]) ∧
    (s.emergencyStopActive = true → startMovement s a = (s, false)) ∧
    (stopAllSafe s).watchdogs = s.watchdogs ∧
    (∀ w rest, s.watchdogs = w :: rest → w.wake ≤ s.now →
      (s.isMoving = false → step s .fire = { s with watchdogs := rest }) ∧
      (s.isMoving = true → step s .fire = stopAllSafe { s with watchdogs := rest })) := by
  refine ⟨?_, ?_, ?_, ?_⟩
  · intro h
    unfold startMovement
    rw [h]
    exact ⟨rfl, rfl⟩
  · intro h
    unfold startMovement
    rw [h]
    rfl
  · unfold stopAllSafe endMovement
    dsimp only
    by_cases h : ({ s with motors := stopAll s.motors } : Ellee).isMoving
    · rw [if_pos h]
    · rw [if_neg h]
  · intro w rest hw hdue
    refine ⟨?_, ?_⟩
    · intro hmov
      show (match s.watchdogs with
        | [] => s
        | w :: rest =>
            if w.wake ≤ s.now then
              if s.isMoving then stopAllSafe { s with watchdogs := rest }
              else { s with watchdogs := rest }
            else s) = _
      rw [hw]
      dsimp only
      rw [if_pos hdue, hmov]
      rfl
    · intro hmov
      show (match s.watchdogs with
        | [] => s
        | w :: rest =>
            if w.wake ≤ s.now then
              if s.isMoving then stopAllSafe { s with watchdogs := rest }
              else { s with watchdogs := rest }
            else s) = _
      rw [hw]
      dsimp only
      rw [if_pos hdue, hmov]
      rfl

/-- Witness for `c1_amended_watchdog_lifecycle` at the freshly started
controller: admission from `elleeInit` succeeds and arms the single
watchdog `⟨10, 1⟩`. -/

theorem c1_amended_witness :
    elleeInit.emergencyStopActive = false ∧
    (startMovement elleeInit "moving forward").2 = true ∧
    (startMovement elleeInit "moving forward").1.watchdogs =
      elleeInit.watchdogs ++ [⟨elleeInit.now + elleeInit.movementTimeoutS,
        elleeInit.totalMovements + 1⟩] :=
  ⟨by decide,
    ((c1_amended_watchdog_lifecycle elleeInit "moving forward").1 (by decide)).1,
    ((c1_amended_watchdog_lifecycle elleeInit "moving forward").1 (by decide)).2⟩

/-! ## Basic facts about stopping -/

lemma stopAll_any (m : Motors) : stopAll m = motorsInit := rfl

lemma endMovement_fields (s : Ellee) :
    (endMovement s).isMoving = false ∧ (endMovement s).currentAction = "stopped" ∧
    (endMovement s).movementStartTime = none ∧ (endMovement s).motors = s.motors ∧
    (endMovement s).watchdogs = s.watchdogs ∧
    (endMovement s).emergencyStopActive = s.emergencyStopActive := by
  unfold endMovement
  by_cases h : s.isMoving = true
  · rw [if_pos h]; exact ⟨rfl, rfl, rfl, rfl, rfl, rfl⟩
  · rw [if_neg h]; exact ⟨rfl, rfl, rfl, rfl, rfl, rfl⟩

lemma stopAllSafe_fields (s : Ellee) :
    (stopAllSafe s).isMoving = false ∧ (stopAllSafe s).currentAction = "stopped" ∧
    (stopAllSafe s).movementStartTime = none ∧ (stopAllSafe s).motors = motorsInit ∧
    (stopAllSafe s).watchdogs = s.watchdogs ∧
    (stopAllSafe s).emergencyStopActive = s.emergencyStopActive := by
  unfold stopAllSafe
  refine ⟨(endMovement_fields _).1, (endMovement_fields _).2.1,
    (endMovement_fields _).2.2.1, ?_, ?_, ?_⟩
  · rw [(endMovement_fields _).2.2.2.1]; exact stopAll_any _
  · exact (endMovement_fields _).2.2.2.2.1
  · exact (endMovement_fields _).2.2.2.2.2

lemma stopAllSafe_of_stopped (s : Ellee) (h1 : s.isMoving = false)
    (h2 : s.currentAction = "stopped") (h3 : s.movementStartTime = none)
    (h4 : s.motors = motorsInit) : stopAllSafe s = s := by
  obtain ⟨mo, ds, ms, cs, im, ca, st, es, lw, mt, mh, tm, wd, nw⟩ := s
  dsimp only at h1 h2 h3 h4
  subst h1; subst h2; subst h3; subst h4
  rfl

/-- C9. The safe stop is idempotent: a second `stop_all_safe` leaves the
whole controller state — supervisor status, wheel duties and movement
history — exactly as the first left it; after one call the controller is
stopped with all duties zero. -/

theorem c9_stop_idempotent (s : Ellee) :
    stopAllSafe (stopAllSafe s) = stopAllSafe s ∧
    (stopAllSafe s).isMoving = false ∧
    (stopAllSafe s).currentAction = "stopped" ∧
    (stopAllSafe s).motors = motorsInit ∧
    (stopAllSafe (stopAllSafe s)).movementHistory = (stopAllSafe s).movementHistory := by
  obtain ⟨f1, f2, f3, f4, f5, f6⟩ := stopAllSafe_fields s
  have hfix := stopAllSafe_of_stopped (stopAllSafe s) f1 f2 f3 f4
  exact ⟨hfix, f1, f2, f4, by rw [hfix]⟩

/-- C2. The claim describes the intended behaviour, but the code has a
bug: `safety_lock` is a non-reentrant `threading.Lock`, and
`emergency_stop()` calls `_end_movement()` while holding it, so every
call self-deadlocks.  Evaluated at the failing input — a fresh
controller on which `voice_move_forward()` started a movement and
`emergency_stop()` is then called — the flag is set and all wheels are
zeroed, but `is_moving` stays true (it is never cleared), no message is
ever returned, the lock is wedged forever, and a subsequent
`_start_movement` call blocks instead of returning `False` with the
state unchanged. -/
theorem c2_emergency_deadlock :
    (voiceMoveForward elleeInit none none).1.isMoving = true ∧
    (voiceMoveForward elleeInit none none).1.lockWedged = false ∧
    (emergencyStop (voiceMoveForward elleeInit none none).1).emergencyStopActive = true ∧
    (emergencyStop (voiceMoveForward elleeInit none none).1).motors = motorsInit ∧
    (emergencyStop (voiceMoveForward elleeInit none none).1).isMoving = true ∧
    (emergencyStop (voiceMoveForward elleeInit none none).1).lockWedged = true ∧
    startMovementCall (emergencyStop (voiceMoveForward elleeInit none none).1)
        "moving forward" =
      (emergencyStop (voiceMoveForward elleeInit none none).1, none) := by
  refine ⟨by decide, by decide, by decide, by decide, by decide, by decide, by decide⟩

/-- C4. `set_speed_limit` clamps every requested speed — including
negative requests and requests above 100 — into `[0, max_safe_speed]`
and stores the clamped value as `current_speed`. -/

theorem c4_speed_clamped (s : Ellee) (v : ℚ) (h : 0 ≤ s.maxSafeSpeed) :
    0 ≤ (setSpeedLimit s v).2 ∧ (setSpeedLimit s v).2 ≤ s.maxSafeSpeed ∧
    (setSpeedLimit s v).1.currentSpeed = (setSpeedLimit s v).2 := by
  unfold setSpeedLimit
  exact ⟨le_max_left 0 _, max_le h (min_le_left _ _), rfl⟩

/-- Witness for `c4_speed_clamped` at the default controller and the
over-limit request 150. -/

theorem c4_speed_clamped_witness :
    0 ≤ elleeInit.maxSafeSpeed ∧
    (0 ≤ (setSpeedLimit elleeInit 150).2 ∧
     (setSpeedLimit elleeInit 150).2 ≤ elleeInit.maxSafeSpeed ∧
     (setSpeedLimit elleeInit 150).1.currentSpeed = (setSpeedLimit elleeInit 150).2) :=
  ⟨by decide, c4_speed_clamped elleeInit 150 (by decide)⟩

lemma pyOrQ_zero (d : ℚ) : pyOrQ (some 0) d = d := by
  simp [pyOrQ]

lemma pyOrQ_none (d : ℚ) : pyOrQ none d = d := rfl

/-- C10. In every speed-taking voice movement method, an explicit
requested speed of `0` is Python-falsy and therefore indistinguishable
from passing no speed: the wheels run at the current controller
default, which is 50 on a fresh controller. -/

theorem c10_zero_speed_means_default :
    (∀ s d, voiceMoveForward s (some 0) d = voiceMoveForward s none d) ∧
    (∀ s d, voiceMoveBackward s (some 0) d = voiceMoveBackward s none d) ∧
    (∀ s d, voiceTurnLeft s (some 0) d = voiceTurnLeft s none d) ∧
    (∀ s d, voiceTurnRight s (some 0) d = voiceTurnRight s none d) ∧
    (∀ s d, voiceStrafeLeft s (some 0) d = voiceStrafeLeft s none d) ∧
    (∀ s d, voiceStrafeRight s (some 0) d = voiceStrafeRight s none d) ∧
    (∀ s d, voiceSpinAround s (some 0) d = voiceSpinAround s none d) ∧
    (voiceMoveForward elleeInit (some 0) none).1.motors =
      { fl := ⟨50, 0⟩, fr := ⟨50, 0⟩, bl := ⟨50, 0⟩, br := ⟨50, 0⟩ } := by
  refine ⟨?_, ?_, ?_, ?_, ?_, ?_, ?_, by decide⟩ <;> intro s d <;>
    simp only [voiceMoveForward, voiceMoveBackward, voiceTurnLeft, voiceTurnRight,
      voiceStrafeLeft, voiceStrafeRight, voiceSpinAround, voiceMove,
      pyOrQ_zero, pyOrQ_none]

/-! ## C3: entering and leaving the `MOVING` state -/

/-- C3 fails on the code: `_process_movement_command` transitions to
`MOVING` before any admission check.  A plain "stop" utterance is a
recognized movement command, so from a fresh listening brain it enters
`MOVING` although `_start_movement` — the admission check — was never
even invoked: afterwards the controller is not moving and
`total_movements` is still zero. -/
theorem c3_counterexample :
    ¬ c3EntryClaim ∧
    (processMovementCommand c3Brain ["stop"]).robot = RobotState.moving ∧
    (processMovementCommand c3Brain ["stop"]).ellee.isMoving = false ∧
    (processMovementCommand c3Brain ["stop"]).ellee.totalMovements = 0 := by
  refine ⟨?_, by decide, by decide, by decide⟩
  intro h
  have := h c3Brain ["stop"] (by decide) (by decide) (by decide)
  exact absurd this (by decide)

/-- C3 amended: `MOVING` is entered before and regardless of the
admission check — the brain ends in `MOVING` whenever the processor
reports success (including a plain stop, which involves no admission at
all) and also when the processing call never returns (it blocked inside
the motor controller); only a failure report falls back to `LISTENING`.
The tick handler then leaves `MOVING` exactly when `is_moving` is false
— to `LISTENING` with a person present, to `IDLE` otherwise — and keeps
the state `MOVING` while `is_moving` is true. -/
theorem c3_amended_moving_state (b : Brain) (ws : List String) :
    (∀ r, (processVoiceCommand b.ellee ws).2 = some r → r.success = true →
      (processMovementCommand b ws).robot = RobotState.moving) ∧
    ((processVoiceCommand b.ellee ws).2 = none →
      (processMovementCommand b ws).robot = RobotState.moving) ∧
    (∀ r, (processVoiceCommand b.ellee ws).2 = some r → r.success = false →
      (processMovementCommand b ws).robot = RobotState.listening) ∧
    (b.movementEnabled = true → b.ellee.isMoving = false → b.personDetected = true →
      (handleMovementState b).robot = RobotState.listening) ∧
    (b.movementEnabled = true → b.ellee.isMoving = false → b.personDetected = false →
      (handleMovementState b).robot = RobotState.idle) ∧
    (b.robot = RobotState.moving → b.movementEnabled = true → b.ellee.isMoving = true →
      (handleMovementState b).robot = RobotState.moving) := by
  refine ⟨?_, ?_, ?_, ?_, ?_, ?_⟩
  · intro r hr hs
    simp [processMovementCommand, transitionToMoving, transitionToListening, hr, hs]
  · intro hr
    simp [processMovementCommand, transitionToMoving, hr]
  · intro r hr hs
    simp [processMovementCommand, transitionToMoving, transitionToListening, hr, hs]
  · intro h1 h2 h3
    simp [handleMovementState, transitionToListening, transitionToIdle, h1, h2, h3]
  · intro h1 h2 h3
    simp [handleMovementState, transitionToListening, transitionToIdle, h1, h2, h3]
  · intro h1 h2 h3
    unfold handleMovementState
    rw [if_pos h2, if_neg (by simp [h3])]
    split
    · exact h1
    · exact h1

/-- Witness for `c3_amended_moving_state`: the plain "stop" command
processed by a fresh listening brain reports success and leaves the
brain in `MOVING`. -/
theorem c3_amended_moving_state_witness :
    (processVoiceCommand c3Brain.ellee ["stop"]).2 =
      some { success := true, response := "Stopping all movement",
             commandType := some CmdType.stop } ∧
    (processMovementCommand c3Brain ["stop"]).robot = RobotState.moving :=
  ⟨by decide,
    (c3_amended_moving_state c3Brain ["stop"]).1
      { success := true, response := "Stopping all movement",
        commandType := some CmdType.stop }
      (by decide) (by decide)⟩

/-! ## C6: classification priority -/

lemma map_result_commandType {t : CmdType} {sp : Option ℚ} {d : Option ℤ}
    (o : Option String) (r : CmdResult)
    (h : o.map (okResult t sp d) = some r) :
    r.commandType = some t := by
  cases o with
  | none => simp at h
  | some msg =>
      rw [← Option.some.inj h]
      rfl

lemma executeMovementCommand_type (s : Ellee) (t : CmdType) (sp : Option ℚ)
    (d : Option ℤ) (r : CmdResult)
    (h : (executeMovementCommand s t sp d).2 = some r) :
    r.commandType = some t ∨ r.commandType = none := by
  cases t with
  | comeHere =>
      cases sp with
      | none => exact Or.inl (map_result_commandType _ r h)
      | some v => exact Or.inr (by rw [← Option.some.inj h])
  | stop => exact Or.inr (by rw [← Option.some.inj h])
  | emergencyStop => exact Or.inr (by rw [← Option.some.inj h])
  | moveForward => exact Or.inl (map_result_commandType _ r h)
  | moveBackward => exact Or.inl (map_result_commandType _ r h)
  | turnLeft => exact Or.inl (map_result_commandType _ r h)
  | turnRight => exact Or.inl (map_result_commandType _ r h)
  | strafeLeft => exact Or.inl (map_result_commandType _ r h)
  | strafeRight => exact Or.inl (map_result_commandType _ r h)
  | spinAround => exact Or.inl (map_result_commandType _ r h)
  | dance => exact Or.inl (map_result_commandType _ r h)

lemma tryMovements_type (s : Ellee) (ws : List String) (sp : Option ℚ)
    (d : Option ℤ) (ts : List CmdType) :
    ∀ r, (tryMovements s ws sp d ts).2 = some r →
      r.commandType = none ∨ ∃ t ∈ ts, r.commandType = some t := by
  induction ts with
  | nil =>
      intro r h
      left
      unfold tryMovements at h
      rw [← Option.some.inj h]
  | cons t rest ih =>
      intro r h
      unfold tryMovements at h
      by_cases hm : matchCommand ws t = true
      · rw [if_pos hm] at h
        rcases executeMovementCommand_type s t sp d r h with h1 | h1
        · right; exact ⟨t, List.mem_cons_self t rest, h1⟩
        · left; exact h1
      · rw [if_neg hm] at h
        rcases ih r h with h1 | h1
        · left; exact h1
        · obtain ⟨u, hu, he⟩ := h1
          right; exact ⟨u, List.mem_cons_of_mem t hu, he⟩

lemma movementOrder_not_control :
    ∀ t ∈ movementOrder, t ≠ CmdType.stop ∧ t ≠ CmdType.emergencyStop := by
  decide

/-- C6. Classification is strictly prioritized: an utterance matching
any emergency-stop pattern takes the emergency branch no matter what
else it matches — the controller receives the emergency-stop effect
(flag set, wheels zeroed, lock wedged by the deadlock) and no other
handler runs; otherwise a plain-stop match takes the stop branch; only
otherwise are the directional patterns tried, and they can never
produce a stop or emergency-stop classification.  The concrete
utterance "emergency stop move forward" matches the directional
`move_forward` pattern yet resolves to the emergency branch. -/
theorem c6_priority (s : Ellee) (ws : List String) :
    (matchCommand ws .emergencyStop = true →
      processVoiceCommand s ws = (emergencyStop s, none)) ∧
    (matchCommand ws .emergencyStop = false → matchCommand ws .stop = true →
      s.lockWedged = false →
      processVoiceCommand s ws =
        (stopAllSafe s, some { success := true, response := "Stopping all movement",
                               commandType := some CmdType.stop })) ∧
    (matchCommand ws .emergencyStop = false → matchCommand ws .stop = false →
      ∀ r, (processVoiceCommand s ws).2 = some r →
        r.commandType ≠ some CmdType.emergencyStop ∧
        r.commandType ≠ some CmdType.stop) ∧
    (processVoiceCommand elleeInit ["emergency", "stop", "move", "forward"] =
      (emergencyStop elleeInit, none)) ∧
    (emergencyStop elleeInit).emergencyStopActive = true ∧
    (emergencyStop elleeInit).motors = motorsInit ∧
    matchCommand ["emergency", "stop", "move", "forward"] .moveForward = true := by
  refine ⟨?_, ?_, ?_, by decide, by decide, by decide, by decide⟩
  · intro h
    have hne : ws ≠ [] := by
      intro he
      rw [he] at h
      exact absurd h (by decide)
    unfold processVoiceCommand
    rw [if_neg hne, if_pos h]
  · intro h1 h2 hw
    have hne : ws ≠ [] := by
      intro he
      rw [he] at h2
      exact absurd h2 (by decide)
    unfold processVoiceCommand
    rw [if_neg hne, if_neg (by simp [h1]), if_pos h2, if_neg (by simp [hw])]
  · intro h1 h2 r hr
    by_cases hne : ws = []
    · unfold processVoiceCommand at hr
      rw [if_pos hne] at hr
      rw [← Option.some.inj hr]
      exact ⟨by simp, by simp⟩
    · unfold processVoiceCommand at hr
      rw [if_neg hne, if_neg (by simp [h1]), if_neg (by simp [h2])] at hr
      rcases tryMovements_type s ws (extractSpeed ws) (extractDuration ws)
        movementOrder r hr with h3 | h3
      · rw [h3]; exact ⟨by simp, by simp⟩
      · obtain ⟨t, ht, he⟩ := h3
        rw [he]
        have := movementOrder_not_control t ht
        exact ⟨by simp [this.2], by simp [this.1]⟩

/-- Witness for `c6_priority` at the mixed utterance: the emergency
pattern matches and the processor takes the emergency branch — the
deadlocking `emergency_stop()` is invoked and nothing is returned. -/
theorem c6_priority_witness :
    matchCommand ["emergency", "stop", "move", "forward"] .emergencyStop = true ∧
    processVoiceCommand elleeInit ["emergency", "stop", "move", "forward"] =
      (emergencyStop elleeInit, none) :=
  ⟨by decide,
    (c6_priority elleeInit ["emergency", "stop", "move", "forward"]).1 (by decide)⟩

/-- C7. Scenario B: "turn left quickly" parses to the turn-left intent
with the fast speed class 65 and drives the wheels at the signed speeds
FL = −65, FR = 65, BL = −65, BR = 65 (duty pairs `(0,65)`, `(65,0)`,
`(0,65)`, `(65,0)`). -/
theorem c7_turn_left_quickly :
    extractSpeed ["turn", "left", "quickly"] = some 65 ∧
    (processVoiceCommand elleeInit ["turn", "left", "quickly"]).2 =
      some { success := true, response := "Turning left at 65% speed",
             commandType := some CmdType.turnLeft, speed := some 65,
             duration := none } ∧
    (processVoiceCommand elleeInit ["turn", "left", "quickly"]).1.motors =
      { fl := ⟨0, 65⟩, fr := ⟨65, 0⟩, bl := ⟨0, 65⟩, br := ⟨65, 0⟩ } ∧
    signedSpeed (processVoiceCommand elleeInit ["turn", "left", "quickly"]).1.motors.fl =
      -65 ∧
    signedSpeed (processVoiceCommand elleeInit ["turn", "left", "quickly"]).1.motors.fr =
      65 ∧
    signedSpeed (processVoiceCommand elleeInit ["turn", "left", "quickly"]).1.motors.bl =
      -65 ∧
    signedSpeed (processVoiceCommand elleeInit ["turn", "left", "quickly"]).1.motors.br =
      65 := by
  have hm : (processVoiceCommand elleeInit ["turn", "left", "quickly"]).1.motors =
      { fl := ⟨0, 65⟩, fr := ⟨65, 0⟩, bl := ⟨0, 65⟩, br := ⟨65, 0⟩ } := by decide
  refine ⟨by decide, by decide, hm, ?_, ?_, ?_, ?_⟩ <;>
    rw [hm] <;> norm_num [signedSpeed]
